import Mathlib

set_option maxRecDepth 40000

/-!
Verification of the realtime synchronization layer of the
streamdeck-trackaudio plugin against its natural-language specification.

The development shallowly embeds the relevant TypeScript source:

* `src/src/trackAudioManager.ts` — the `TrackAudioManager` class (connection
  lifecycle, reconnect timer, inbound message decoding/dispatch, outbound
  send), modelled as a state `MgrState` and a step function `stepOp` over
  the operations and transport events that can reach the class.
* `src/types/messages.ts` — message type guards, modelled by the type-tag
  dispatch inside `processMessage`.
* `src/controllers/atisLetter.ts` — the `AtisLetterController` letter /
  isUpdated setters, modelled as pure state transformers.

JavaScript runtime behaviour that the source relies on is embedded
explicitly: `JSON.parse` is a small executable JSON parser `jsonParse`
returning `Except`; an uncaught JavaScript exception is an `Except.error`
result; property access `x.type` on `null` raises a `TypeError`; `ws`
WebSocket semantics (ready states, the close event firing on a socket after
`close()` even when the manager has dropped its reference, because
`disconnect()` never removes the attached listeners) are part of the
transition model.
-/

namespace TrackAudio

/-! ### WebSocket ready states

The states `WebSocket.CONNECTING/OPEN/CLOSED`. The manager never holds a
socket in the CLOSING state: the only `close()` call it makes is in
`disconnect()`, which immediately drops its reference, so CLOSING is
omitted from the model. -/

inductive ReadyState
  | connecting
  | opened
  | closed
  deriving DecidableEq, Repr

structure Sock where
  readyState : ReadyState
  deriving DecidableEq, Repr

/-- The `reconnectTimer` field of `TrackAudioManager` together with the
status of the timeout it refers to.

* `noTimer` — the field is `null`.
* `live d` — the field holds a timeout scheduled with delay `d` that has
  not fired yet.
* `stale d` — the field still holds a timeout handle but the timeout has
  already fired (the callback does not null the field; only `connect()` and
  `disconnect()` do). -/
inductive TimerField
  | noTimer
  | live (delayMs : Nat)
  | stale (delayMs : Nat)
  deriving DecidableEq, Repr

/-- State of the `TrackAudioManager` singleton plus the parts of the
JavaScript runtime it interacts with.

`pendingTimerCount` counts the timeout callbacks currently scheduled in the
runtime's timer queue on behalf of the manager; it changes exactly when the
code calls `setTimeout`, when `clearTimeout` cancels a live timeout, and
when a timeout fires.

`orphanClose` counts close events that will still be delivered to the
manager's `close` listener from sockets the manager closed in `disconnect()`
and no longer references (the listeners are never removed). -/
structure MgrState where
  socket : Option Sock
  timerField : TimerField
  url : String
  reconnectInterval : Nat
  pendingTimerCount : Nat
  orphanClose : Nat
  deriving DecidableEq, Repr

/-- Initial state of the singleton, from the field initializers:
`socket = null`, `reconnectInterval = 1000 * 5`,
`url = "ws://localhost:49080/ws"`, `reconnectTimer = null`. -/
def initState : MgrState :=
  { socket := none
    timerField := .noTimer
    url := "ws://localhost:49080/ws"
    reconnectInterval := 1000 * 5
    pendingTimerCount := 0
    orphanClose := 0 }

/-- Model of `clearTimeout(this.reconnectTimer); this.reconnectTimer = null`:
cancelling a live timeout removes it from the timer queue; clearing a stale
handle is a runtime no-op. Used by `connect()` and `disconnect()` guarded by
`if (this.reconnectTimer)`. -/
def clearTimerField (s : MgrState) : MgrState :=
  match s.timerField with
  | .noTimer => s
  | .live _ =>
      { s with timerField := .noTimer, pendingTimerCount := s.pendingTimerCount - 1 }
  | .stale _ => { s with timerField := .noTimer }

/-- Model of `TrackAudioManager.reconnect()`: if `this.reconnectTimer` is
set, return; otherwise
`this.reconnectTimer = setTimeout(..., this.reconnectInterval)`. -/
def reconnectFn (s : MgrState) : MgrState :=
  match s.timerField with
  | .noTimer =>
      { s with timerField := .live s.reconnectInterval
               pendingTimerCount := s.pendingTimerCount + 1 }
  | _ => s

/-- The guard `this.socket && this.socket.readyState !== WebSocket.CLOSED`
of `connect()`: a `null` socket is falsy. -/
def socketExistsNotClosed (s : MgrState) : Bool :=
  match s.socket with
  | some sk => sk.readyState ≠ .closed
  | none => false

/-- Model of `TrackAudioManager.connect()`: early return when a socket
exists whose `readyState` is not CLOSED; otherwise cancel any pending
reconnect timer and open a fresh socket (which starts CONNECTING, with the
four listeners attached). -/
def connectFn (s : MgrState) : MgrState :=
  if socketExistsNotClosed s then s
  else { clearTimerField s with socket := some ⟨.connecting⟩ }

/-- Model of `TrackAudioManager.disconnect()`: if a socket exists, `close()`
it and null the reference; then cancel any pending reconnect timer. Closing
a socket that is not already CLOSED makes the runtime deliver a close event
later, and the manager's `close` listener is still attached to it. -/
def disconnectFn (s : MgrState) : MgrState :=
  let s1 :=
    match s.socket with
    | some sk =>
        { s with socket := none
                 orphanClose :=
                   if sk.readyState ≠ .closed then s.orphanClose + 1 else s.orphanClose }
    | none => s
  clearTimerField s1

/-- Model of the `open` listener: fires when the held socket finishes
connecting; emits `connected`. -/
def socketOpenFn (s : MgrState) : MgrState :=
  match s.socket with
  | some sk =>
      if sk.readyState = .connecting then { s with socket := some ⟨.opened⟩ } else s
  | none => s

/-- Model of the `close` listener on the held socket: the socket transitions
to CLOSED, the listener emits `disconnected` and calls `this.reconnect()`. -/
def socketCloseFn (s : MgrState) : MgrState :=
  match s.socket with
  | some sk =>
      if sk.readyState ≠ .closed then reconnectFn { s with socket := some ⟨.closed⟩ }
      else s
  | none => s

/-- Model of the `error` listener on the held socket: logs (distinguishing
ECONNREFUSED) and calls `this.reconnect()`; the ready state is unchanged
(a close event follows separately when the transport actually closes). -/
def socketErrorFn (s : MgrState) : MgrState :=
  match s.socket with
  | some sk => if sk.readyState ≠ .closed then reconnectFn s else s
  | none => s

/-- Model of the delivery of a close event from a socket that `disconnect()`
closed and dropped: the still-attached `close` listener runs, emitting
`disconnected` and calling `this.reconnect()`. -/
def orphanCloseFn (s : MgrState) : MgrState :=
  if s.orphanClose ≠ 0 then reconnectFn { s with orphanClose := s.orphanClose - 1 }
  else s

/-- Model of the expiry of the reconnect timeout: the runtime removes it
from the timer queue (the callback does not null `this.reconnectTimer`, so
the field goes stale) and the callback runs `this.connect()`. -/
def timerFireFn (s : MgrState) : MgrState :=
  match s.timerField with
  | .live d =>
      connectFn
        { s with timerField := .stale d, pendingTimerCount := s.pendingTimerCount - 1 }
  | _ => s

/-- Model of `TrackAudioManager.setUrl(url)`. -/
def setUrlFn (u : String) (s : MgrState) : MgrState := { s with url := u }

/-- The operations callers can invoke on the manager and the runtime events
that can be delivered to it. -/
inductive Op
  | connect
  | disconnect
  | setUrl (u : String)
  | socketOpen
  | socketClose
  | socketError
  | orphanClose
  | timerFire
  deriving DecidableEq, Repr

def stepOp (s : MgrState) (op : Op) : MgrState :=
  match op with
  | .connect => connectFn s
  | .disconnect => disconnectFn s
  | .setUrl u => setUrlFn u s
  | .socketOpen => socketOpenFn s
  | .socketClose => socketCloseFn s
  | .socketError => socketErrorFn s
  | .orphanClose => orphanCloseFn s
  | .timerFire => timerFireFn s

/-- Run a sequence of operations/events from the initial singleton state. -/
def runOps (ops : List Op) : MgrState := ops.foldl stepOp initState

/-- Number of scheduled timeouts accounted for by the `reconnectTimer`
field. -/
def timerCount : TimerField → Nat
  | .live _ => 1
  | .noTimer => 0
  | .stale _ => 0

/-- Inductive invariant of the manager: the timer queue holds exactly the
timeout the `reconnectTimer` field refers to while it is live; the
reconnect interval is the hard-coded 5000 ms; and every timeout ever
scheduled was scheduled with that delay. -/
def Inv (s : MgrState) : Prop :=
  s.pendingTimerCount = timerCount s.timerField ∧
  s.reconnectInterval = 5000 ∧
  ∀ d, (s.timerField = .live d ∨ s.timerField = .stale d) → d = 5000

/-- Formalization of "the reconnect interval is configurable": some
operation or event available to callers changes the `reconnectInterval`
field of some state. -/
def reconnectIntervalConfigurable : Prop :=
  ∃ (op : Op) (s : MgrState), (stepOp s op).reconnectInterval ≠ s.reconnectInterval

/-! ### JSON values and `JSON.parse` / `JSON.stringify`

The manager decodes every inbound frame with `JSON.parse` and serializes
outbound commands with `JSON.stringify`. `Json` is the value space
`JSON.parse` can produce, and `jsonParse` is an executable recursive-descent
parser for the JSON grammar returning `Except`, so that an input on which
`JSON.parse` throws a `SyntaxError` maps to `Except.error`.

A number literal is represented by the exact decimal rational it denotes
(the IEEE-754 rounding the JavaScript engine then applies is not modelled;
every numeric field of the wire protocol is integral and well below 2^53,
where the two representations agree exactly). A `\uXXXX` escape denotes its
code point (UTF-16 surrogate pairing of astral characters is not modelled;
it affects only the decoded value, never acceptance). -/

inductive Json
  | null
  | bool (b : Bool)
  | num (n : Rat)
  | str (s : String)
  | arr (elems : List Json)
  | obj (fields : List (String × Json))

def Json.isNull : Json → Bool
  | .null => true
  | _ => false

def hexDigitChar (n : Nat) : Char :=
  if n < 10 then Char.ofNat ('0'.toNat + n) else Char.ofNat ('a'.toNat + n - 10)

/-- The escaping `JSON.stringify` applies inside string literals: quote,
backslash and the control characters with short escapes get them, the
remaining control characters get a `\u00XX` escape, everything else is
emitted verbatim. -/
def escapeStringChar (c : Char) : List Char :=
  if c = '"' then ['\\', '"']
  else if c = '\\' then ['\\', '\\']
  else if c = '\n' then ['\\', 'n']
  else if c = '\r' then ['\\', 'r']
  else if c = '\t' then ['\\', 't']
  else if c = Char.ofNat 8 then ['\\', 'b']
  else if c = Char.ofNat 12 then ['\\', 'f']
  else if c.toNat < 32 then
    ['\\', 'u', '0', '0', hexDigitChar (c.toNat / 16), hexDigitChar (c.toNat % 16)]
  else [c]

def escapeJsonString (s : String) : String :=
  String.mk (s.data.map escapeStringChar).flatten

mutual

def jsonStringify : Json → String
  | .null => "null"
  | .bool true => "true"
  | .bool false => "false"
  | .num n => toString n
  | .str s => "\"" ++ escapeJsonString s ++ "\""
  | .arr xs => "[" ++ stringifyElems xs ++ "]"
  | .obj fs => "\x7b" ++ stringifyFields fs ++ "\x7d"

def stringifyElems : List Json → String
  | [] => ""
  | [x] => jsonStringify x
  | x :: y :: xs => jsonStringify x ++ "," ++ stringifyElems (y :: xs)

def stringifyFields : List (String × Json) → String
  | [] => ""
  | [(k, v)] => "\"" ++ escapeJsonString k ++ "\":" ++ jsonStringify v
  | (k, v) :: f :: fs =>
      "\"" ++ escapeJsonString k ++ "\":" ++ jsonStringify v ++ "," ++ stringifyFields (f :: fs)

end

/-- The guard `this.socket && this.socket.readyState === WebSocket.OPEN` of
`send()`: a `null` socket is falsy. -/
def socketIsOpen (s : MgrState) : Bool :=
  match s.socket with
  | some sk => sk.readyState = .opened
  | none => false

/-- Model of `TrackAudioManager.send(data)`: transmit `JSON.stringify(data)`
when a socket exists in the OPEN state, otherwise log a warning and do
nothing. The second component is the frame handed to the transport, `none`
when nothing is transmitted. -/
def sendFn (s : MgrState) (data : Json) : MgrState × Option String :=
  if socketIsOpen s then (s, some (jsonStringify data)) else (s, none)

def isWs (c : Char) : Bool :=
  c = ' ' ∨ c = '\t' ∨ c = '\n' ∨ c = '\r'

def skipWs : List Char → List Char
  | [] => []
  | c :: cs => if isWs c then skipWs cs else c :: cs

def isDigit (c : Char) : Bool := '0' ≤ c ∧ c ≤ '9'

/-- Consume a maximal run of decimal digits, returning their value. -/
def parseDigits (acc : Nat) : List Char → Nat × List Char
  | [] => (acc, [])
  | c :: cs =>
      if isDigit c then parseDigits (acc * 10 + (c.toNat - '0'.toNat)) cs
      else (acc, c :: cs)

/-- Consume a maximal run of decimal digits, returning their value and how
many there were. -/
def parseDigitsCount (acc len : Nat) : List Char → Nat × Nat × List Char
  | [] => (acc, len, [])
  | c :: cs =>
      if isDigit c then parseDigitsCount (acc * 10 + (c.toNat - '0'.toNat)) (len + 1) cs
      else (acc, len, c :: cs)

/-- The optional exponent production of a JSON number literal, and assembly
of the denoted value: the mantissa read so far is
`(-1)^neg * (ip + f / 10^fracLen)`. -/
def parseNumberExp (neg : Bool) (ip f fracLen : Nat) (cs : List Char) :
    Except String (Json × List Char) :=
  let mantNum : Int := Int.ofNat (ip * 10 ^ fracLen + f)
  let signedNum : Int := if neg then -mantNum else mantNum
  match cs with
  | c :: rest =>
      if c = 'e' ∨ c = 'E' then
        match rest with
        | '-' :: d :: rest2 =>
            if isDigit d then
              let (e, rest3) := parseDigits (d.toNat - '0'.toNat) rest2
              .ok (.num (mkRat signedNum (10 ^ (fracLen + e))), rest3)
            else .error "bad exponent"
        | '+' :: d :: rest2 =>
            if isDigit d then
              let (e, rest3) := parseDigits (d.toNat - '0'.toNat) rest2
              .ok (.num (mkRat (signedNum * 10 ^ e) (10 ^ fracLen)), rest3)
            else .error "bad exponent"
        | d :: rest2 =>
            if isDigit d then
              let (e, rest3) := parseDigits (d.toNat - '0'.toNat) rest2
              .ok (.num (mkRat (signedNum * 10 ^ e) (10 ^ fracLen)), rest3)
            else .error "bad exponent"
        | [] => .error "bad exponent"
      else .ok (.num (mkRat signedNum (10 ^ fracLen)), c :: rest)
  | [] => .ok (.num (mkRat signedNum (10 ^ fracLen)), [])

/-- The optional fraction production of a JSON number literal: a dot must be
followed by at least one digit. -/
def parseNumberFrac (neg : Bool) (ip : Nat) (cs : List Char) :
    Except String (Json × List Char) :=
  match cs with
  | '.' :: rest =>
      match rest with
      | d :: rest2 =>
          if isDigit d then
            let (f, fracLen, rest3) := parseDigitsCount (d.toNat - '0'.toNat) 1 rest2
            parseNumberExp neg ip f fracLen rest3
          else .error "bad number fraction"
      | [] => .error "bad number fraction"
  | _ => parseNumberExp neg ip 0 0 cs

/-- A JSON number literal after its optional minus sign: the integer part is
a single `0` or a nonzero digit followed by digits — a leading zero followed
by another digit is a `SyntaxError`, as in the JSON grammar. -/
def parseNumber (neg : Bool) (cs : List Char) : Except String (Json × List Char) :=
  match cs with
  | c :: rest =>
      if c = '0' then
        match rest with
        | d :: _ =>
            if isDigit d then .error "leading zero in number"
            else parseNumberFrac neg 0 rest
        | [] => parseNumberFrac neg 0 []
      else if isDigit c then
        let (n, rest2) := parseDigits (c.toNat - '0'.toNat) rest
        parseNumberFrac neg n rest2
      else .error "bad number"
  | [] => .error "bad number"

def escChar (c : Char) : Except String Char :=
  if c = '"' then .ok '"'
  else if c = '\\' then .ok '\\'
  else if c = '/' then .ok '/'
  else if c = 'b' then .ok (Char.ofNat 8)
  else if c = 'f' then .ok (Char.ofNat 12)
  else if c = 'n' then .ok '\n'
  else if c = 'r' then .ok '\r'
  else if c = 't' then .ok '\t'
  else .error "bad escape"

def hexVal (c : Char) : Option Nat :=
  if '0' ≤ c ∧ c ≤ '9' then some (c.toNat - '0'.toNat)
  else if 'a' ≤ c ∧ c ≤ 'f' then some (c.toNat - 'a'.toNat + 10)
  else if 'A' ≤ c ∧ c ≤ 'F' then some (c.toNat - 'A'.toNat + 10)
  else none

/-- Consume the body of a string literal up to the closing quote (the
opening quote has already been consumed). As in the JSON grammar, an
unescaped control character (below U+0020) is a `SyntaxError`, and a
`\uXXXX` escape requires exactly four hexadecimal digits. -/
def parseStringBody : List Char → Except String (List Char × List Char)
  | [] => .error "unterminated string"
  | c :: cs =>
      if c = '"' then .ok ([], cs)
      else if c = '\\' then
        match cs with
        | 'u' :: h1 :: h2 :: h3 :: h4 :: cs2 =>
            match hexVal h1, hexVal h2, hexVal h3, hexVal h4 with
            | some a, some b, some c3, some d => do
                let (body, rest) ← parseStringBody cs2
                .ok (Char.ofNat (((a * 16 + b) * 16 + c3) * 16 + d) :: body, rest)
            | _, _, _, _ => .error "bad unicode escape"
        | e :: cs2 => do
            let ec ← escChar e
            let (body, rest) ← parseStringBody cs2
            .ok (ec :: body, rest)
        | [] => .error "unterminated escape"
      else if c.toNat < 32 then .error "control character in string"
      else do
        let (body, rest) ← parseStringBody cs
        .ok (c :: body, rest)

mutual

def parseVal : Nat → List Char → Except String (Json × List Char)
  | 0, _ => .error "input too deep"
  | fuel + 1, cs =>
      match skipWs cs with
      | [] => .error "unexpected end of input"
      | c :: rest =>
          if c = 'n' then
            match rest with
            | 'u' :: 'l' :: 'l' :: rest2 => .ok (.null, rest2)
            | _ => .error "bad literal"
          else if c = 't' then
            match rest with
            | 'r' :: 'u' :: 'e' :: rest2 => .ok (.bool true, rest2)
            | _ => .error "bad literal"
          else if c = 'f' then
            match rest with
            | 'a' :: 'l' :: 's' :: 'e' :: rest2 => .ok (.bool false, rest2)
            | _ => .error "bad literal"
          else if c = '"' then do
            let (body, rest2) ← parseStringBody rest
            .ok (.str (String.mk body), rest2)
          else if c = '-' then parseNumber true rest
          else if isDigit c then parseNumber false (c :: rest)
          else if c = '[' then
            match skipWs rest with
            | ']' :: rest2 => .ok (.arr [], rest2)
            | rest2 => do
                let (elems, rest3) ← parseElems fuel rest2
                .ok (.arr elems, rest3)
          else if c = Char.ofNat 123 then
            match skipWs rest with
            | c2 :: rest2 =>
                if c2 = Char.ofNat 125 then .ok (.obj [], rest2)
                else do
                  let (fields, rest3) ← parseFields fuel (c2 :: rest2)
                  .ok (.obj fields, rest3)
            | [] => .error "unterminated object"
          else .error "unexpected character"

def parseElems : Nat → List Char → Except String (List Json × List Char)
  | 0, _ => .error "input too deep"
  | fuel + 1, cs => do
      let (v, rest) ← parseVal fuel cs
      match skipWs rest with
      | ',' :: rest2 => do
          let (vs, rest3) ← parseElems fuel rest2
          .ok (v :: vs, rest3)
      | ']' :: rest2 => .ok ([v], rest2)
      | _ => .error "expected comma or bracket"

def parseFields : Nat → List Char → Except String (List (String × Json) × List Char)
  | 0, _ => .error "input too deep"
  | fuel + 1, cs =>
      match skipWs cs with
      | '"' :: rest => do
          let (keyChars, rest2) ← parseStringBody rest
          match skipWs rest2 with
          | ':' :: rest3 => do
              let (v, rest4) ← parseVal fuel rest3
              match skipWs rest4 with
              | ',' :: rest5 => do
                  let (fs, rest6) ← parseFields fuel rest5
                  .ok ((String.mk keyChars, v) :: fs, rest6)
              | c2 :: rest5 =>
                  if c2 = Char.ofNat 125 then .ok ([(String.mk keyChars, v)], rest5)
                  else .error "expected comma or closing brace"
              | [] => .error "unterminated object"
          | _ => .error "expected colon"
      | _ => .error "expected object key"

end

/-- Model of `JSON.parse`: parse a complete JSON document; anything else
throws a `SyntaxError`, modelled as `Except.error`. -/
def jsonParse (s : String) : Except String Json := do
  let (v, rest) ← parseVal (s.length + 1) s.data
  match skipWs rest with
  | [] => .ok v
  | _ => .error "unexpected trailing characters"

/-- A JavaScript exception escaping `processMessage`: either the
`SyntaxError` thrown by `JSON.parse`, or the `TypeError` thrown by reading
`.type` off `null` in the first type guard. -/
inductive JsError
  | parseError (msg : String)
  | typeError

/-- JavaScript object property lookup on the result of `JSON.parse`:
with duplicate keys the last occurrence wins. -/
def jsLookup (k : String) (fields : List (String × Json)) : Option Json :=
  fields.foldl (fun acc f => if f.1 = k then some f.2 else acc) none

/-- The field `message.type` as read by the type guards of
`src/types/messages.ts` and compared against string literals with `===`.
Property access on objects finds the field; on any other non-null value it
yields `undefined` (hence `none`, which compares unequal to every tag); a
non-string `type` field also compares unequal to every tag under `===`, so
it is collapsed to `none`. -/
def getTypeTag : Json → Option String
  | .obj fields =>
      match jsLookup "type" fields with
      | some (.str s) => some s
      | _ => none
  | _ => none

/-- An event emitted by `TrackAudioManager` to its subscribers, with the
decoded message as payload. -/
inductive Emit
  | frequencyUpdate (data : Json)
  | rxBegin (data : Json)
  | rxEnd (data : Json)
  | txBegin (data : Json)
  | txEnd (data : Json)

/-- Model of `TrackAudioManager.processMessage(message)`: `JSON.parse` the
frame (its `SyntaxError` propagates uncaught), then test the guards
`isFrequencyStateUpdate`, `isRxBegin`, `isRxEnd`, `isTxBegin`, `isTxEnd`
in source order; the first guard's `message.type` access throws a
`TypeError` when the frame decoded to `null`. Returns the list of events
emitted to subscribers. -/
def processMessage (message : String) : Except JsError (List Emit) :=
  match jsonParse message with
  | .error e => .error (.parseError e)
  | .ok data =>
      if data.isNull then .error .typeError
      else
        let t := getTypeTag data
        if t = some "kFrequencyStateUpdate" then .ok [.frequencyUpdate data]
        else if t = some "kRxBegin" then .ok [.rxBegin data]
        else if t = some "kRxEnd" then .ok [.rxEnd data]
        else if t = some "kTxBegin" then .ok [.txBegin data]
        else if t = some "kTxEnd" then .ok [.txEnd data]
        else .ok []

/-- The type tags of the specification's inbound message protocol. -/
def tagRecognized : Option String → Bool
  | none => false
  | some s =>
      s == "kFrequencyStateUpdate" || s == "kStationStates" ||
        s == "kStationStateUpdate" || s == "kTxBegin" || s == "kTxEnd" ||
        s == "kRxBegin" || s == "kRxEnd"

/-- A `kStationStateUpdate` wire frame, as in the spec's §8 example. -/
def stationStateFrame : String :=
  "\x7b\"type\":\"kStationStateUpdate\",\"value\":\x7b\"callsign\":\"DAL123\",\"frequency\":121500000,\"tx\":false,\"rx\":true,\"xc\":false,\"headset\":true\x7d\x7d"

/-- The decoding of `stationStateFrame`. -/
def stationStateJson : Json :=
  Json.obj
    [("type", Json.str "kStationStateUpdate"),
     ("value", Json.obj
       [("callsign", Json.str "DAL123"),
        ("frequency", Json.num 121500000),
        ("tx", Json.bool false),
        ("rx", Json.bool true),
        ("xc", Json.bool false),
        ("headset", Json.bool true)])]

/-- A `kStationStates` wire frame with a single station entry. -/
def stationStatesFrame : String :=
  "\x7b\"type\":\"kStationStates\",\"value\":\x7b\"stations\":[\x7b\"type\":\"kStationStateUpdate\",\"value\":\x7b\"callsign\":\"SEA_GND\",\"frequency\":121700000,\"tx\":true,\"rx\":true,\"xc\":false,\"headset\":false\x7d\x7d]\x7d\x7d"

/-! ### `AtisLetterController` (`src/controllers/atisLetter.ts`)

Only the fields touched by the `letter` and `isUpdated` setters are
modelled; `refreshDisplay` (debounced rendering) has no effect on them. -/

structure AtisLetterState where
  letter : Option String
  isUpdated : Bool
  /-- Whether `_autoClearTimeout` currently holds a scheduled timeout. -/
  autoClearArmed : Bool
  /-- The value of `settings.autoClear ?? true`, fixed for the assignment
  being analyzed. -/
  autoClear : Bool
  deriving DecidableEq, Repr

/-- JavaScript truthiness of a `string | undefined` value: `undefined` and
the empty string are falsy. -/
def truthy : Option String → Bool
  | none => false
  | some s => s ≠ ""

/-- The `isUpdated` setter: clear any pending auto-clear timeout, store the
value, and arm a fresh two-minute timeout when the new value is true and
`autoClear` is enabled. -/
def setIsUpdated (c : AtisLetterState) (v : Bool) : AtisLetterState :=
  let c1 := { c with autoClearArmed := false, isUpdated := v }
  if v && c1.autoClear then { c1 with autoClearArmed := true } else c1

/-- The `letter` setter: `isUpdated` is set (through its setter) to the
value of `this._letter && newLetter && this._letter !== newLetter`, then
the new letter is stored. -/
def setLetter (c : AtisLetterState) (newLetter : Option String) : AtisLetterState :=
  let c1 :=
    if truthy c.letter && truthy newLetter && decide (c.letter ≠ newLetter) then
      setIsUpdated c true
    else
      setIsUpdated c false
  { c1 with letter := newLetter }

/-! ## Theorems -/

/-! ### The timer invariant -/

theorem inv_initState : Inv initState := by
  refine ⟨rfl, rfl, ?_⟩
  intro d hd
  rcases hd with h | h <;> exact TimerField.noConfusion h

theorem inv_clearTimerField {s : MgrState} (h : Inv s) : Inv (clearTimerField s) := by
  obtain ⟨h1, h2, h3⟩ := h
  unfold clearTimerField
  cases htf : s.timerField <;>
    simp_all [Inv, timerCount]

theorem inv_reconnectFn {s : MgrState} (h : Inv s) : Inv (reconnectFn s) := by
  obtain ⟨h1, h2, h3⟩ := h
  unfold reconnectFn
  cases htf : s.timerField <;>
    simp_all [Inv, timerCount]

theorem inv_update_socket {s : MgrState} (h : Inv s) (o : Option Sock) :
    Inv { s with socket := o } := h

theorem inv_update_socket_orphan {s : MgrState} (h : Inv s) (o : Option Sock) (n : Nat) :
    Inv { s with socket := o, orphanClose := n } := h

theorem inv_connectFn {s : MgrState} (h : Inv s) : Inv (connectFn s) := by
  unfold connectFn
  by_cases hb : socketExistsNotClosed s = true
  · rw [if_pos hb]
    exact h
  · rw [if_neg hb]
    exact inv_update_socket (inv_clearTimerField h) _

theorem inv_disconnectFn {s : MgrState} (h : Inv s) : Inv (disconnectFn s) := by
  unfold disconnectFn
  cases hso : s.socket with
  | none => exact inv_clearTimerField h
  | some sk => exact inv_clearTimerField (inv_update_socket_orphan h _ _)

theorem inv_socketOpenFn {s : MgrState} (h : Inv s) : Inv (socketOpenFn s) := by
  unfold socketOpenFn
  cases hso : s.socket with
  | none => exact h
  | some sk =>
      by_cases hrs : sk.readyState = ReadyState.connecting
      · simp only [hrs, if_pos rfl]
        exact inv_update_socket h _
      · simp only [if_neg hrs]
        exact h

theorem inv_socketCloseFn {s : MgrState} (h : Inv s) : Inv (socketCloseFn s) := by
  unfold socketCloseFn
  cases hso : s.socket with
  | none => exact h
  | some sk =>
      by_cases hrs : sk.readyState = ReadyState.closed
      · simp only [hrs, ne_eq, not_true_eq_false, if_false]
        exact h
      · simp only [ne_eq, hrs, not_false_eq_true, if_true]
        exact inv_reconnectFn (inv_update_socket h _)

theorem inv_socketErrorFn {s : MgrState} (h : Inv s) : Inv (socketErrorFn s) := by
  unfold socketErrorFn
  cases hso : s.socket with
  | none => exact h
  | some sk =>
      by_cases hrs : sk.readyState = ReadyState.closed
      · simp only [hrs, ne_eq, not_true_eq_false, if_false]
        exact h
      · simp only [ne_eq, hrs, not_false_eq_true, if_true]
        exact inv_reconnectFn h

theorem inv_orphanCloseFn {s : MgrState} (h : Inv s) : Inv (orphanCloseFn s) := by
  unfold orphanCloseFn
  by_cases ho : s.orphanClose = 0
  · simp only [ho, ne_eq, not_true_eq_false, if_false]
    exact h
  · simp only [ne_eq, ho, not_false_eq_true, if_true]
    exact inv_reconnectFn (show Inv { s with orphanClose := s.orphanClose - 1 } from h)

theorem inv_timerFireFn {s : MgrState} (h : Inv s) : Inv (timerFireFn s) := by
  obtain ⟨h1, h2, h3⟩ := h
  unfold timerFireFn
  cases htf : s.timerField with
  | noTimer => exact ⟨h1, h2, h3⟩
  | stale d => exact ⟨h1, h2, h3⟩
  | live d =>
      apply inv_connectFn
      refine ⟨?_, h2, ?_⟩
      · rw [htf] at h1
        simp [h1, timerCount]
      · intro d' hd'
        have : d' = d := by
          rcases hd' with h' | h'
          · cases h'
          · cases h'
            rfl
        rw [this]
        exact h3 d (Or.inl htf)

theorem inv_stepOp {s : MgrState} (h : Inv s) (op : Op) : Inv (stepOp s op) := by
  cases op with
  | connect => exact inv_connectFn h
  | disconnect => exact inv_disconnectFn h
  | setUrl u => exact h
  | socketOpen => exact inv_socketOpenFn h
  | socketClose => exact inv_socketCloseFn h
  | socketError => exact inv_socketErrorFn h
  | orphanClose => exact inv_orphanCloseFn h
  | timerFire => exact inv_timerFireFn h

theorem inv_foldl (ops : List Op) (s : MgrState) (h : Inv s) :
    Inv (ops.foldl stepOp s) := by
  induction ops generalizing s with
  | nil => exact h
  | cons op rest ih => exact ih _ (inv_stepOp h op)

theorem inv_runOps (ops : List Op) : Inv (runOps ops) :=
  inv_foldl ops initState inv_initState

/-- Cancelling the reconnect timer really empties the timer queue, given
the invariant. -/
theorem clearTimerField_clears {s : MgrState} (h : Inv s) :
    (clearTimerField s).timerField = TimerField.noTimer ∧
    (clearTimerField s).pendingTimerCount = 0 := by
  obtain ⟨h1, -, -⟩ := h
  unfold clearTimerField
  cases htf : s.timerField <;> simp_all [timerCount]

/-! ### Preservation of `reconnectInterval`

`reconnectInterval` is a private field with no mutator anywhere in the
class: no operation or event changes it. -/

theorem reconnectInterval_clearTimerField (s : MgrState) :
    (clearTimerField s).reconnectInterval = s.reconnectInterval := by
  unfold clearTimerField
  cases s.timerField <;> rfl

theorem reconnectInterval_reconnectFn (s : MgrState) :
    (reconnectFn s).reconnectInterval = s.reconnectInterval := by
  unfold reconnectFn
  cases s.timerField <;> rfl

theorem reconnectInterval_connectFn (s : MgrState) :
    (connectFn s).reconnectInterval = s.reconnectInterval := by
  unfold connectFn
  by_cases hb : socketExistsNotClosed s = true
  · rw [if_pos hb]
  · rw [if_neg hb]
    exact reconnectInterval_clearTimerField s

theorem reconnectInterval_disconnectFn (s : MgrState) :
    (disconnectFn s).reconnectInterval = s.reconnectInterval := by
  unfold disconnectFn
  cases hso : s.socket with
  | none => exact reconnectInterval_clearTimerField s
  | some sk =>
      exact reconnectInterval_clearTimerField
        { s with socket := none
                 orphanClose :=
                   if sk.readyState ≠ .closed then s.orphanClose + 1 else s.orphanClose }

theorem reconnectInterval_socketOpenFn (s : MgrState) :
    (socketOpenFn s).reconnectInterval = s.reconnectInterval := by
  unfold socketOpenFn
  cases hso : s.socket with
  | none => rfl
  | some sk =>
      by_cases hrs : sk.readyState = ReadyState.connecting
      · simp only [hrs, if_true, eq_self_iff_true]
      · simp only [if_neg hrs]

theorem reconnectInterval_socketCloseFn (s : MgrState) :
    (socketCloseFn s).reconnectInterval = s.reconnectInterval := by
  unfold socketCloseFn
  cases hso : s.socket with
  | none => rfl
  | some sk =>
      by_cases hrs : sk.readyState = ReadyState.closed
      · simp only [hrs, ne_eq, not_true_eq_false, if_false]
      · simp only [ne_eq, hrs, not_false_eq_true, if_true]
        exact reconnectInterval_reconnectFn { s with socket := some ⟨.closed⟩ }

theorem reconnectInterval_socketErrorFn (s : MgrState) :
    (socketErrorFn s).reconnectInterval = s.reconnectInterval := by
  unfold socketErrorFn
  cases hso : s.socket with
  | none => rfl
  | some sk =>
      by_cases hrs : sk.readyState = ReadyState.closed
      · simp only [hrs, ne_eq, not_true_eq_false, if_false]
      · simp only [ne_eq, hrs, not_false_eq_true, if_true]
        exact reconnectInterval_reconnectFn s

theorem reconnectInterval_orphanCloseFn (s : MgrState) :
    (orphanCloseFn s).reconnectInterval = s.reconnectInterval := by
  unfold orphanCloseFn
  by_cases ho : s.orphanClose = 0
  · simp only [ho, ne_eq, not_true_eq_false, if_false]
  · simp only [ne_eq, ho, not_false_eq_true, if_true]
    exact reconnectInterval_reconnectFn { s with orphanClose := s.orphanClose - 1 }

theorem reconnectInterval_timerFireFn (s : MgrState) :
    (timerFireFn s).reconnectInterval = s.reconnectInterval := by
  unfold timerFireFn
  cases htf : s.timerField with
  | noTimer => rfl
  | stale d => rfl
  | live d =>
      exact reconnectInterval_connectFn
        { s with timerField := .stale d, pendingTimerCount := s.pendingTimerCount - 1 }

theorem reconnectInterval_stepOp (s : MgrState) (op : Op) :
    (stepOp s op).reconnectInterval = s.reconnectInterval := by
  cases op with
  | connect => exact reconnectInterval_connectFn s
  | disconnect => exact reconnectInterval_disconnectFn s
  | setUrl u => rfl
  | socketOpen => exact reconnectInterval_socketOpenFn s
  | socketClose => exact reconnectInterval_socketCloseFn s
  | socketError => exact reconnectInterval_socketErrorFn s
  | orphanClose => exact reconnectInterval_orphanCloseFn s
  | timerFire => exact reconnectInterval_timerFireFn s

/-! ### Sanity checks of the embedding on concrete inputs -/

example : processMessage "123" = Except.ok [] := rfl

example : processMessage "null" = Except.error JsError.typeError := rfl

example : (processMessage "not json").isOk = false := rfl

example : (jsonParse "01").isOk = false := rfl

example : (jsonParse "-01").isOk = false := rfl

example : (processMessage "01").isOk = false := rfl

example : jsonParse "1.5" = Except.ok (Json.num (mkRat 3 2)) := rfl

example : jsonParse "1e3" = Except.ok (Json.num 1000) := rfl

example : jsonParse "-0.25e2" = Except.ok (Json.num (-25)) := rfl

example : jsonParse "12E-1" = Except.ok (Json.num (mkRat 6 5)) := rfl

example : (jsonParse "1.").isOk = false := rfl

example : (jsonParse "1e").isOk = false := rfl

example : jsonParse "\"\\u0041\"" = Except.ok (Json.str "A") := rfl

example : (jsonParse "\"\\u004\"").isOk = false := rfl

example : (jsonParse "\"a\nb\"").isOk = false := rfl

example : jsonParse "\"a\\nb\"" = Except.ok (Json.str "a\nb") := rfl

example : jsonStringify (Json.str "a\"b\\c\nd") = "\"a\\\"b\\\\c\\nd\"" := rfl

example :
    processMessage "\x7b\"type\":\"kRxBegin\",\"value\":\x7b\"callsign\":\"LON_CTR\",\"pFrequencyHz\":127825000\x7d\x7d"
      = Except.ok [Emit.rxBegin (Json.obj
          [("type", Json.str "kRxBegin"),
           ("value", Json.obj
             [("callsign", Json.str "LON_CTR"),
              ("pFrequencyHz", Json.num 127825000)])])] := rfl

example :
    (setLetter ⟨some "A", false, false, true⟩ (some "B")).isUpdated = true := rfl

example :
    (setLetter ⟨none, false, false, true⟩ (some "B")).isUpdated = false := rfl

example :
    (setLetter ⟨some "A", true, true, true⟩ none).isUpdated = false := rfl

/-! ### The claims -/

/-- Claim C1: for every sequence of `connect()` calls, transport-close
events, transport-error events, and reconnect-timer expiries (and all other
operations of the manager), at most one reconnect timer is pending at any
time; and a `reconnect()` request made while a timer is already pending
leaves the state — including the pending timer — unchanged (the request is
dropped, not replaced). -/
theorem C1_at_most_one_pending_reconnect_timer :
    (∀ ops : List Op, (runOps ops).pendingTimerCount ≤ 1) ∧
    ∀ s : MgrState, (∃ d, s.timerField = TimerField.live d) → reconnectFn s = s := by
  constructor
  · intro ops
    rw [(inv_runOps ops).1]
    cases (runOps ops).timerField <;> simp [timerCount]
  · rintro s ⟨d, hd⟩
    unfold reconnectFn
    rw [hd]

/-- Witness for C1 at the concrete sequence `connect(); close-event`, which
leaves a live reconnect timer that a further `reconnect()` drops. -/
theorem C1_at_most_one_pending_reconnect_timer_witness :
    (runOps [Op.connect, Op.socketClose]).pendingTimerCount ≤ 1 ∧
    reconnectFn (runOps [Op.connect, Op.socketClose]) = runOps [Op.connect, Op.socketClose] :=
  ⟨C1_at_most_one_pending_reconnect_timer.1 [Op.connect, Op.socketClose],
   C1_at_most_one_pending_reconnect_timer.2 (runOps [Op.connect, Op.socketClose])
     ⟨5000, rfl⟩⟩

/-- Claim C2 (refuted — code bug): `disconnect()` is not permanent. The
socket that `disconnect()` closes still has the manager's `close` listener
attached, and that listener unconditionally calls `reconnect()`. After
`connect(); disconnect()` and the delivery of that close event — with no
further `connect()` call by the host — one reconnect timer is pending,
scheduled at 5000 ms, and its expiry then reopens the connection. -/
theorem C2_close_after_disconnect_schedules_reconnect :
    (runOps [Op.connect, Op.disconnect, Op.orphanClose]).pendingTimerCount = 1 ∧
    (runOps [Op.connect, Op.disconnect, Op.orphanClose]).timerField = TimerField.live 5000 ∧
    (runOps [Op.connect, Op.disconnect, Op.orphanClose, Op.timerFire]).socket
      = some ⟨ReadyState.connecting⟩ :=
  ⟨rfl, rfl, rfl⟩

/-- Claim C3 as stated is false: `processMessage` calls `JSON.parse` with
no try/catch, so a frame that is not valid JSON raises a `SyntaxError` that
propagates past the Connection Manager boundary. Concretely, the frame
`"not json"` produces an uncaught exception, not a logged-and-dropped
failure. -/
theorem C3_malformed_frame_raises_counterexample :
    (processMessage "not json").isOk = false := rfl

/-- Claim C3 (amended): `processMessage` never raises on any frame that
parses as a JSON document other than `null`; only non-JSON frames (whose
`JSON.parse` exception propagates) and `null` frames (whose `.type` access
raises a `TypeError`) escape. -/
theorem C3_total_on_nonnull_json (msg : String) (j : Json)
    (hp : jsonParse msg = Except.ok j) (hn : j.isNull = false) :
    (processMessage msg).isOk = true := by
  unfold processMessage
  rw [hp]
  simp only [hn, Bool.false_eq_true, if_false]
  split_ifs <;> rfl

/-- Witness for the amended C3 at the concrete frame `"123"`. -/
theorem C3_total_on_nonnull_json_witness :
    jsonParse "123" = Except.ok (Json.num 123) ∧ (processMessage "123").isOk = true :=
  ⟨rfl, C3_total_on_nonnull_json "123" (Json.num 123) rfl rfl⟩

/-- Claim C4 as stated is false: `processMessage` never imports or tests
the `isStationStateUpdate` / `isStationStates` guards, so a decoded
`kStationStateUpdate` frame is not dispatched to anyone — the emitted event
list is empty rather than a broadcast keyed by the frame's callsign. -/
theorem C4_station_state_update_not_dispatched_counterexample :
    jsonParse stationStateFrame = Except.ok stationStateJson ∧
    getTypeTag stationStateJson = some "kStationStateUpdate" ∧
    processMessage stationStateFrame = Except.ok [] :=
  ⟨rfl, rfl, rfl⟩

/-- Claim C4 (amended): `processMessage` ignores `kStationStateUpdate` and
`kStationStates` frames entirely — no event is broadcast for either kind;
only `kFrequencyStateUpdate`, `kRxBegin`, `kRxEnd`, `kTxBegin` and `kTxEnd`
are dispatched. -/
theorem C4_station_messages_ignored (msg : String) (j : Json)
    (hp : jsonParse msg = Except.ok j)
    (ht : getTypeTag j = some "kStationStateUpdate" ∨
          getTypeTag j = some "kStationStates") :
    processMessage msg = Except.ok [] := by
  have hn : j.isNull = false := by
    rcases ht with h | h <;> cases j <;> simp_all [getTypeTag, Json.isNull]
  unfold processMessage
  rw [hp]
  simp only [hn, Bool.false_eq_true, if_false]
  rcases ht with h | h <;> simp [h]

/-- Witness for the amended C4 at the two concrete station frames. -/
theorem C4_station_messages_ignored_witness :
    processMessage stationStateFrame = Except.ok [] ∧
    processMessage stationStatesFrame = Except.ok [] :=
  ⟨C4_station_messages_ignored stationStateFrame stationStateJson rfl (Or.inl rfl),
   C4_station_messages_ignored stationStatesFrame
     (Json.obj
       [("type", Json.str "kStationStates"),
        ("value", Json.obj
          [("stations", Json.arr
            [Json.obj
              [("type", Json.str "kStationStateUpdate"),
               ("value", Json.obj
                 [("callsign", Json.str "SEA_GND"),
                  ("frequency", Json.num 121700000),
                  ("tx", Json.bool true),
                  ("rx", Json.bool true),
                  ("xc", Json.bool false),
                  ("headset", Json.bool false)])]])])])
     rfl (Or.inr rfl)⟩

/-- Claim C5: calling `connect()` while a socket exists whose ready state
is not CLOSED is a no-op — the manager state, including the existing socket
(and hence its attached handlers) and any pending timer, is unchanged, and
no new transport is opened. -/
theorem C5_connect_noop_when_socket_not_closed (s : MgrState) (sk : Sock)
    (hs : s.socket = some sk) (hrs : sk.readyState ≠ ReadyState.closed) :
    connectFn s = s := by
  have hb : socketExistsNotClosed s = true := by
    simp [socketExistsNotClosed, hs, hrs]
  unfold connectFn
  rw [if_pos hb]

/-- Witness for C5 at the state reached by a single `connect()`, whose
socket is still CONNECTING. -/
theorem C5_connect_noop_when_socket_not_closed_witness :
    (runOps [Op.connect]).socket = some ⟨ReadyState.connecting⟩ ∧
    connectFn (runOps [Op.connect]) = runOps [Op.connect] :=
  ⟨rfl,
   C5_connect_noop_when_socket_not_closed (runOps [Op.connect])
     ⟨ReadyState.connecting⟩ rfl (by decide)⟩

/-- Claim C6: whenever the socket is absent or not OPEN, `send(data)` is a
local no-op with a diagnostic: nothing is handed to the transport, the
manager state is unchanged (in particular nothing is buffered or queued —
the state has no queue to mutate), and no exception is raised (`sendFn` is
total). -/
theorem C6_send_noop_when_not_open (s : MgrState) (data : Json)
    (h : ∀ sk, s.socket = some sk → sk.readyState ≠ ReadyState.opened) :
    sendFn s data = (s, none) := by
  have hb : ¬ socketIsOpen s = true := by
    unfold socketIsOpen
    cases hso : s.socket with
    | none => simp
    | some sk => simp [h sk hso]
  unfold sendFn
  rw [if_neg hb]

/-- Witness for C6 in the initial (socketless) state. -/
theorem C6_send_noop_when_not_open_witness :
    sendFn initState (Json.obj [("type", Json.str "kGetStationStates")])
      = (initState, none) :=
  C6_send_noop_when_not_open initState (Json.obj [("type", Json.str "kGetStationStates")])
    (by intro sk h; simp [initState] at h)

/-- Claim C7 as stated is false: the frame `"null"` parses as JSON and has
no recognized type tag, yet `processMessage` raises — the first type
guard's `message.type` access on `null` throws a `TypeError`. -/
theorem C7_null_frame_raises_counterexample :
    jsonParse "null" = Except.ok Json.null ∧ (processMessage "null").isOk = false :=
  ⟨rfl, rfl⟩

/-- Claim C7 (amended): for every frame that parses as JSON to a value
other than `null` and whose type tag is not one of the recognized message
kinds, `processMessage` never raises and emits no event. -/
theorem C7_unrecognized_tag_no_raise_no_emit (msg : String) (j : Json)
    (hp : jsonParse msg = Except.ok j) (hn : j.isNull = false)
    (hu : tagRecognized (getTypeTag j) = false) :
    processMessage msg = Except.ok [] := by
  unfold processMessage
  rw [hp]
  simp only [hn, Bool.false_eq_true, if_false]
  cases ht : getTypeTag j with
  | none => simp
  | some s =>
      rw [ht] at hu
      simp only [tagRecognized, Bool.or_eq_false_iff, beq_eq_false_iff_ne, ne_eq] at hu
      obtain ⟨⟨⟨⟨⟨⟨u1, u2⟩, u3⟩, u4⟩, u5⟩, u6⟩, u7⟩ := hu
      simp [ht, Option.some.injEq, u1, u4, u5, u6, u7]

/-- Witness for the amended C7 at a frame carrying an unknown tag. -/
theorem C7_unrecognized_tag_no_raise_no_emit_witness :
    jsonParse "\x7b\"type\":\"kVoiceConnectedState\"\x7d"
      = Except.ok (Json.obj [("type", Json.str "kVoiceConnectedState")]) ∧
    processMessage "\x7b\"type\":\"kVoiceConnectedState\"\x7d" = Except.ok [] :=
  ⟨rfl,
   C7_unrecognized_tag_no_raise_no_emit "\x7b\"type\":\"kVoiceConnectedState\"\x7d"
     (Json.obj [("type", Json.str "kVoiceConnectedState")]) rfl rfl rfl⟩

/-- Claim C8 as stated is false in its "configurable" part: the reconnect
interval is a private field with no setter (`setUrl` is the only
configuration entry point), so no operation or event available to the
hosting process changes it. -/
theorem C8_interval_not_configurable_counterexample :
    ¬ reconnectIntervalConfigurable := by
  rintro ⟨op, s, h⟩
  exact h (reconnectInterval_stepOp s op)

/-- Claim C8 (amended): the reconnect delay is a fixed, non-exponential
5000 ms in every reachable state, and every scheduled reconnect timer was
scheduled with exactly that delay; it is not configurable. -/
theorem C8_fixed_5000ms_reconnect_delay :
    (∀ ops : List Op, (runOps ops).reconnectInterval = 5000) ∧
    ∀ (ops : List Op) (d : Nat),
      (runOps ops).timerField = TimerField.live d → d = 5000 := by
  constructor
  · intro ops
    exact (inv_runOps ops).2.1
  · intro ops d hd
    exact (inv_runOps ops).2.2 d (Or.inl hd)

/-- Witness for the amended C8 at the sequence `connect(); close-event`,
which schedules a timer at the default delay. -/
theorem C8_fixed_5000ms_reconnect_delay_witness :
    (runOps [Op.connect, Op.socketClose]).reconnectInterval = 5000 ∧
    (5000 : Nat) = 5000 :=
  ⟨C8_fixed_5000ms_reconnect_delay.1 [Op.connect, Op.socketClose],
   C8_fixed_5000ms_reconnect_delay.2 [Op.connect, Op.socketClose] 5000 rfl⟩

/-- Claim C9: whenever `connect()` proceeds to open a new transport (the
socket is absent or CLOSED), any pending reconnect timer is cancelled
first: immediately afterwards the timer field is empty, no timeout is
scheduled, and the fresh socket is CONNECTING — a `connect()` during a
pending reconnect never leaves both a live connection attempt and a
pending timer. -/
theorem C9_connect_clears_pending_timer (s : MgrState)
    (hs : s.socket = none ∨ ∃ sk, s.socket = some sk ∧ sk.readyState = ReadyState.closed)
    (hinv : Inv s) :
    (connectFn s).timerField = TimerField.noTimer ∧
    (connectFn s).pendingTimerCount = 0 ∧
    (connectFn s).socket = some ⟨ReadyState.connecting⟩ := by
  have hclear := clearTimerField_clears hinv
  have hb : ¬ socketExistsNotClosed s = true := by
    unfold socketExistsNotClosed
    rcases hs with h | ⟨sk, h, hrs⟩
    · simp [h]
    · simp [h, hrs]
  unfold connectFn
  rw [if_neg hb]
  exact ⟨hclear.1, hclear.2, rfl⟩

/-- Witness for C9 at the state reached by `connect(); close-event`, where
a reconnect timer is pending and the socket is CLOSED. -/
theorem C9_connect_clears_pending_timer_witness :
    (connectFn (runOps [Op.connect, Op.socketClose])).timerField = TimerField.noTimer ∧
    (connectFn (runOps [Op.connect, Op.socketClose])).pendingTimerCount = 0 ∧
    (connectFn (runOps [Op.connect, Op.socketClose])).socket
      = some ⟨ReadyState.connecting⟩ :=
  C9_connect_clears_pending_timer (runOps [Op.connect, Op.socketClose])
    (Or.inr ⟨⟨ReadyState.closed⟩, rfl, rfl⟩)
    (inv_runOps [Op.connect, Op.socketClose])

/-- Claim C10: after assigning the `letter` property of an
`AtisLetterController`, `isUpdated` is true exactly when the previously
stored letter was truthy, the newly assigned letter is truthy, and the two
differ; in particular the first-ever assignment (previous letter
undefined) and any assignment of undefined leave `isUpdated` false. -/
theorem C10_letter_setter_isUpdated_iff (c : AtisLetterState) (n : Option String) :
    (setLetter c n).isUpdated = true ↔
      (truthy c.letter = true ∧ truthy n = true ∧ c.letter ≠ n) := by
  have hup : (setLetter c n).isUpdated
      = (truthy c.letter && truthy n && decide (c.letter ≠ n)) := by
    unfold setLetter setIsUpdated
    cases hb : truthy c.letter && truthy n && decide (c.letter ≠ n) <;>
      by_cases ha : c.autoClear <;>
        simp [hb, ha]
  rw [hup]
  simp [Bool.and_eq_true, decide_eq_true_eq, and_assoc]

end TrackAudio
